import Mathlib

/-!
Shallow embedding of `electrumx/server/http_session.py` (class `HttpHandler`)
and proofs about it.

Modelling conventions:
* Python dict-based records become Lean structures; an optional key becomes an
  `Option` field (`none` = key absent or value `None`).
* `hash_to_hex_str` comes from the external library `electrumx.lib.hash`
  (not part of this module); transaction hashes are modelled directly by their
  hex-string encoding, so that function is the identity here.
* Raised exceptions become `Except PyErr`; the distinct exception messages of
  the source are collapsed into the constructors of `PyErr` (one constructor
  per distinct failure site/meaning).
* `asyncio.gather(*...)` (fail-fast fan-out join) is modelled by `gather`,
  which returns the first error in list order, or the list of all results.
-/

namespace ElectrumX

/-- Failure outcomes of the handler, one constructor per distinct failure
site of the source: the three 400 responses of pagination checking, the
txid-format check of the batch fetchers, the missing-detail and
missing-time exceptions of `process_single_tx_record`, the Python
`UnboundLocalError` raised when `tx_time` is read without having been
assigned, the list-index error of `addresses[0]` on an empty list, the
no-matching-output exception of `wallet_unspent`, and a generic error of an
awaited collaborator. -/
inductive PyErr where
  | invalidPagination
  | invalidTxId
  | missingTransactionDetail
  | missingTimestamp
  | unboundLocal
  | indexError
  | missingOutputReference
  | upstream
  deriving DecidableEq

/-- Source constant `MAX_TX_QUERY = 50`. -/
def MAX_TX_QUERY : Int := 50

/-- Pagination validation and clamping performed by `history` (lines
102-113) before any collaborator call: rejects `from < 0`, `to < 0` and
`from > to` with a 400 response (modelled `PyErr.invalidPagination`),
then clamps `to` to `from + MAX_TX_QUERY`. -/
def clampWindow (query_from query_to : Int) : Except PyErr (Int × Int) :=
  if query_from < 0 then .error .invalidPagination
  else if query_to < 0 then .error .invalidPagination
  else if query_from > query_to then .error .invalidPagination
  else if query_to > query_from + MAX_TX_QUERY then .ok (query_from, query_from + MAX_TX_QUERY)
  else .ok (query_from, query_to)

/-- C6: `clampWindow` fails with `invalidPagination` exactly when
`from < 0`, `to < 0` or `from > to`, and otherwise returns
`(from, min to (from + MAX_TX_QUERY))`. -/
theorem clampWindow_characterization (f t : Int) :
    (clampWindow f t = .error .invalidPagination ↔ (f < 0 ∨ t < 0 ∨ f > t))
    ∧ (¬ (f < 0 ∨ t < 0 ∨ f > t) →
        clampWindow f t = .ok (f, min t (f + MAX_TX_QUERY))) := by
  simp only [clampWindow]
  split_ifs with h1 h2 h3 h4
  · exact ⟨⟨fun _ => Or.inl h1, fun _ => rfl⟩, fun h => absurd (Or.inl h1) h⟩
  · exact ⟨⟨fun _ => Or.inr (Or.inl h2), fun _ => rfl⟩,
      fun h => absurd (Or.inr (Or.inl h2)) h⟩
  · exact ⟨⟨fun _ => Or.inr (Or.inr h3), fun _ => rfl⟩,
      fun h => absurd (Or.inr (Or.inr h3)) h⟩
  · refine ⟨⟨fun h => by exact absurd h (by simp), fun h => ?_⟩, fun _ => ?_⟩
    · rcases h with h | h | h <;> omega
    · rw [min_eq_right (le_of_lt h4)]
  · refine ⟨⟨fun h => by exact absurd h (by simp), fun h => ?_⟩, fun _ => ?_⟩
    · rcases h with h | h | h <;> omega
    · rw [min_eq_left (le_of_not_lt h4)]

/-- Witness for C6 at the claim's concrete examples: `(10, 5)` and
`(-1, 5)` are rejected, `(0, 200)` is clamped to `(0, 50)`. -/
theorem clampWindow_characterization_witness :
    clampWindow 10 5 = .error .invalidPagination
    ∧ clampWindow (-1) 5 = .error .invalidPagination
    ∧ clampWindow 0 200 = .ok (0, 50) := by
  refine ⟨?_, ?_, ?_⟩
  · exact (clampWindow_characterization 10 5).1.2 (Or.inr (Or.inr (by norm_num)))
  · exact (clampWindow_characterization (-1) 5).1.2 (Or.inl (by norm_num))
  · have h := (clampWindow_characterization 0 200).2 (by norm_num)
    simpa using h

/-- Transaction hashes are exchanged as their 64-character hex encoding;
the external `electrumx.lib.hash.hash_to_hex_str` is modelled as the
identity on that encoding. -/
abbrev Hash : Type := String

/-- Model of the external `hash_to_hex_str` under the convention that a
`Hash` is already carried in hex form. -/
def hash_to_hex_str (h : Hash) : String := h

/-- The optional `segwit` sub-object of a decoded script, as consulted by
`get_addrs_from_script_list` (line 241-243). The `addresses` list is `[]`
when the key is absent, `None` or empty (all falsy for `segwit.get`). -/
structure SegwitInfo where
  addresses : List String
  deriving DecidableEq

/-- A `scriptPubKey` dict as delivered by the daemon: optional `addresses`
key (`none` = absent), `hex`, `type` and optional `segwit` sub-object. -/
structure ScriptPubKey where
  addresses : Option (List String)
  hex : String
  type : String
  segwit : Option SegwitInfo
  deriving DecidableEq

/-- One entry of a detailed transaction's `vin` list: parent txid and
parent output index, as read on lines 183-184. -/
structure VinRef where
  txid : String
  vout : Nat
  deriving DecidableEq

/-- One entry of a detailed transaction's `vout` list: decimal `value`,
`scriptPubKey` dict, and the optional output index key `n` (`wallet_unspent`
line 258 tolerates its absence). -/
structure VoutItem where
  value : ℚ
  scriptPubKey : ScriptPubKey
  n : Option Nat
  deriving DecidableEq

/-- A detailed transaction as returned by the daemon's verbose lookup:
`txid`, optional `confirmations` (absent for mempool transactions),
optional block `time`, and the `vin`/`vout` lists. -/
structure TxDetail where
  txid : String
  confirmations : Option Int
  time : Option Nat
  vin : List VinRef
  vout : List VoutItem
  deriving DecidableEq

/-- A mempool-snapshot entry (`self.mempool.detail[txid]`), of which
`process_single_tx_record` reads only the optional `time`. -/
structure MemTx where
  time : Option Nat
  deriving DecidableEq

/-- Per-script body of the loop of `get_addrs_from_script_list`
(lines 232-245): a falsy decode result gives `none`; a truthy primary
`addresses` list is returned; otherwise a `nonstandard` classification
falls back to a truthy `segwit.addresses` list; all else gives `none`. -/
def get_addrs_from_script (s : Option ScriptPubKey) : Option (List String) :=
  match s with
  | none => none
  | some s =>
    match s.addresses with
    | some (a :: rest) => some (a :: rest)
    | _ =>
      if s.type == "nonstandard" then
        match s.segwit with
        | some sw =>
          match sw.addresses with
          | a :: rest => some (a :: rest)
          | [] => none
        | none => none
      else none

/-- `get_addrs_from_script_list` (lines 230-246): element-wise address
extraction over a list of decoded scripts. -/
def get_addrs_from_script_list (script_list : List (Option ScriptPubKey)) :
    List (Option (List String)) :=
  script_list.map get_addrs_from_script

/-- Counterexample to C9: a script classified `nonstandard` that carries a
populated segwit address list but also a populated primary `addresses`
list yields the primary list, not the segwit one — the segwit list does
not take precedence whenever it is present. -/
theorem get_addrs_nonstandard_segwit_not_preferred :
    get_addrs_from_script_list
      [some { addresses := some ["A"], hex := "00", type := "nonstandard",
              segwit := some { addresses := ["B"] } }]
      = [some ["A"]]
    ∧ (["A"] : List String) ≠ ["B"] := by
  exact ⟨rfl, by decide⟩

/-- C9 (amended): for a script classified `nonstandard` whose primary
`addresses` key is absent or empty (falsy) and whose segwit address list
is populated, extraction returns the segwit address list, not an empty
result. -/
theorem get_addrs_nonstandard_segwit (s : ScriptPubKey) (sw : SegwitInfo)
    (a : String) (rest : List String)
    (htype : s.type = "nonstandard")
    (hprim : s.addresses = none ∨ s.addresses = some [])
    (hsw : s.segwit = some sw) (haddrs : sw.addresses = a :: rest) :
    get_addrs_from_script (some s) = some (a :: rest) := by
  rcases hprim with h | h <;>
    simp [get_addrs_from_script, h, htype, hsw, haddrs]

/-- Witness for C9 (amended) at a concrete nonstandard segwit script. -/
theorem get_addrs_nonstandard_segwit_witness :
    get_addrs_from_script
      (some { addresses := none, hex := "51", type := "nonstandard",
              segwit := some { addresses := ["bc1q"] } })
      = some ["bc1q"] :=
  get_addrs_nonstandard_segwit _ _ _ _ rfl (Or.inl rfl) rfl rfl

/-- Timestamp resolution of `process_single_tx_record` (lines 165-179),
including the unassigned-variable slip: with `confirmations` present,
`tx_time` is assigned the detail's own `time` (the mempool snapshot is not
consulted); otherwise the snapshot is consulted and `tx_time` is assigned
only when an entry exists. The outer `Option` layer records whether
`tx_time` was assigned at all: reading it unassigned at line 178 raises
`UnboundLocalError` (`PyErr.unboundLocal`), and an assigned `None` raises
the missing-time exception of line 179 (`PyErr.missingTimestamp`). -/
def resolve_tx_time (tx_detail : TxDetail) (mempool_detail : String → Option MemTx) :
    Except PyErr Nat :=
  let tx_time : Option (Option Nat) :=
    if tx_detail.confirmations.isSome then
      some tx_detail.time
    else
      match mempool_detail tx_detail.txid with
      | some memtx => some memtx.time
      | none => none
  match tx_time with
  | none => .error .unboundLocal
  | some none => .error .missingTimestamp
  | some (some t) => .ok t

/-- C2 (code bug, failing input): a detail without `confirmations` whose
txid has no mempool-snapshot entry makes the record build fail with an
`UnboundLocalError` on `tx_time` — not with the missing-timestamp
exception the spec requires. The positive branches behave as claimed:
with `confirmations` present the detail's own `time` is used even when a
stale snapshot entry exists, and a snapshot hit supplies its cached time. -/
theorem resolve_tx_time_unbound_on_snapshot_miss :
    resolve_tx_time
      { txid := "aa", confirmations := none, time := none, vin := [], vout := [] }
      (fun _ => none)
      = .error .unboundLocal
    ∧ PyErr.unboundLocal ≠ PyErr.missingTimestamp
    ∧ resolve_tx_time
        { txid := "aa", confirmations := some 3, time := some 111, vin := [], vout := [] }
        (fun _ => some { time := some 999 })
        = .ok 111
    ∧ resolve_tx_time
        { txid := "aa", confirmations := none, time := some 111, vin := [], vout := [] }
        (fun _ => some { time := some 999 })
        = .ok 999 := by
  refine ⟨rfl, by decide, rfl, rfl⟩

/-- A pending-transaction summary from the mempool collaborator, of which
`get_unconfirmed_list` reads only the hash. -/
structure MempoolTxSummary where
  hash : Hash

/-- `get_unconfirmed_list` (lines 145-150): hex txids of the mempool
summaries for the key, in collaborator order. -/
def get_unconfirmed_list (unconfirmed_list : List MempoolTxSummary) : List String :=
  unconfirmed_list.map (fun tx => hash_to_hex_str tx.hash)

/-- `get_confirmed_list` (lines 152-157): the confirmed `(tx_hash, height)`
pairs from the storage collaborator, reversed, projected to hex txids. -/
def get_confirmed_list (confirmed_list : List (Hash × Int)) : List String :=
  (confirmed_list.reverse).map (fun p => hash_to_hex_str p.1)

/-- `get_txid_list` (lines 133-143): pending ids first, then the reversed
confirmed ids. -/
def get_txid_list (unconfirmed_list : List MempoolTxSummary)
    (confirmed_list : List (Hash × Int)) : List String :=
  get_unconfirmed_list unconfirmed_list ++ get_confirmed_list confirmed_list

/-- C3: assuming the storage collaborator returns confirmed pairs in
strictly ascending height order (the collaborator lives outside this
module; ascending chain order modelled from the spec), the collected list
is the pending ids in collaborator order followed by the confirmed ids in
strictly descending height order. -/
theorem get_txid_list_order (u : List MempoolTxSummary) (c : List (Hash × Int))
    (hsorted : List.Pairwise (fun p q => p.2 < q.2) c) :
    get_txid_list u c
      = u.map (fun tx => hash_to_hex_str tx.hash)
        ++ (c.reverse).map (fun p => hash_to_hex_str p.1)
    ∧ List.Pairwise (fun p q => q.2 < p.2) c.reverse := by
  refine ⟨rfl, ?_⟩
  rw [List.pairwise_reverse]
  exact hsorted

/-- Witness for C3 at the claim's example: confirmed heights 50 and 100
(ascending from storage) and one pending id give the order
pending, height-100, height-50. -/
theorem get_txid_list_order_witness :
    get_txid_list [⟨"p"⟩] [("t50", (50 : Int)), ("t100", 100)]
      = ["p", "t100", "t50"]
    ∧ List.Pairwise (fun p q : Hash × Int => q.2 < p.2)
        ([("t50", (50 : Int)), ("t100", 100)].reverse) := by
  have h := get_txid_list_order [⟨"p"⟩] [("t50", (50 : Int)), ("t100", 100)]
    (by simp)
  exact ⟨h.1, h.2⟩

/-- Insertion of an element into a sorted list, for the sorting steps of
the source (`sorted(utxos)` on line 310 and `history.sort(...)` on
line 121). -/
def insertLe (le : α → α → Bool) (a : α) : List α → List α
  | [] => [a]
  | b :: t => if le a b then a :: b :: t else b :: insertLe le a t

/-- Insertion sort by a boolean comparison. None of the verified claims
depends on the particular sorting algorithm, only on its output being a
sorting. -/
def sortLe (le : α → α → Bool) : List α → List α
  | [] => []
  | a :: t => insertLe le a (sortLe le t)

/-- A UTXO as produced by the storage/mempool collaborators (the fields
read by `hashX_listunspent`). -/
structure UTXO where
  tx_hash : Hash
  tx_pos : Nat
  height : Int
  value : Nat
  deriving DecidableEq

/-- One entry of the unspent listing built on lines 314-318. -/
structure UnspentOut where
  tx_hash : String
  tx_pos : Nat
  height : Int
  value : Nat
  deriving DecidableEq

/-- Comparison used for `sorted(utxos)` on line 310. Modelled from the
spec: stored unspent outputs are sorted by `(height, txid, index)` for
determinism; the namedtuple field order actually compared lives in an
external collaborator, and no verified claim depends on the order. -/
def utxoLe (a b : UTXO) : Bool :=
  if a.height < b.height then true
  else if b.height < a.height then false
  else if a.tx_hash < b.tx_hash then true
  else if b.tx_hash < a.tx_hash then false
  else a.tx_pos ≤ b.tx_pos

/-- `hashX_listunspent` (lines 306-318): sorted stored UTXOs, then the
mempool UTXOs, filtered by the pending-spend set and projected to the
output dict shape. -/
def hashX_listunspent (stored mempool_utxos : List UTXO)
    (spends : List (Hash × Nat)) : List UnspentOut :=
  let utxos := sortLe utxoLe stored ++ mempool_utxos
  (utxos.filter (fun u => !(spends.contains (u.tx_hash, u.tx_pos)))).map
    (fun u => { tx_hash := hash_to_hex_str u.tx_hash, tx_pos := u.tx_pos,
                height := u.height, value := u.value })

/-- C5: the unspent listing never contains an entry whose (txid, index)
pair appears in the pending-spend set, for any stored list, mempool list
and spend set. -/
theorem hashX_listunspent_excludes_spends (stored mem : List UTXO)
    (spends : List (Hash × Nat)) (e : UnspentOut)
    (he : e ∈ hashX_listunspent stored mem spends) :
    (e.tx_hash, e.tx_pos) ∉ spends := by
  simp only [hashX_listunspent, List.mem_map, List.mem_filter] at he
  obtain ⟨u, ⟨_, hu⟩, rfl⟩ := he
  simpa [hash_to_hex_str] using hu

/-- Witness for C5: a stored UTXO with a pending spend is dropped, a
mempool UTXO without one is kept, and the kept entry's pair is not in the
spend set. -/
theorem hashX_listunspent_excludes_spends_witness :
    ({ tx_hash := "b", tx_pos := 1, height := 5, value := 7 } : UnspentOut)
      ∈ hashX_listunspent [⟨"a", 0, 3, 2⟩] [⟨"b", 1, 5, 7⟩] [("a", 0)]
    ∧ ((("b" : Hash), (1 : Nat)) ∉ [((("a" : Hash)), (0 : Nat))]) :=
  ⟨by decide, hashX_listunspent_excludes_spends [⟨"a", 0, 3, 2⟩] [⟨"b", 1, 5, 7⟩]
    [("a", 0)] { tx_hash := "b", tx_pos := 1, height := 5, value := 7 } (by decide)⟩

/-- Source constant: `self.coin.VALUE_PER_COIN` for a coin with 8 decimal
places (the ratio from which `self.prec` is derived on line 35). -/
def VALUE_PER_COIN : Nat := 100000000

/-- Source line 35: `self.prec = int(math.log(self.coin.VALUE_PER_COIN, 10))`,
which evaluates to 8 for `VALUE_PER_COIN = 10^8`. -/
def prec : Nat := 8

/-- Round half to even of `num / den` (`den > 0`), the rounding used both
by IEEE-754 binary64 arithmetic and by Python's `round` on `Decimal`
values (default context `ROUND_HALF_EVEN`). -/
def rhe (num den : Nat) : Nat :=
  let q := num / den
  let r := num % den
  if den < 2 * r then q + 1
  else if 2 * r = den then (if q % 2 = 1 then q + 1 else q) else q

/-- Mantissa of the binary64 result of `out.value / self.coin.VALUE_PER_COIN`
(source line 190, Python float division) for satoshi amounts `v` whose
quotient lies in `[2^26, 2^27)`: in that binade the representable doubles
are exactly `m / 2^26` with `m ∈ [2^52, 2^53)`, and correctly rounded
division returns the nearest such `m`, ties to even. -/
def float_div_sats_mantissa (v : Nat) : Nat := rhe (v * 2 ^ 26) VALUE_PER_COIN

/-- Effect of `round(Decimal(x), self.prec)` (source lines 212-213, with
`prec = 8`) on a binary64 value `x = m / 2^26`: the conversion to
`Decimal` is exact, and rounding to 8 decimal places half-to-even yields
`rhe (m * 10^8) 2^26` satoshis. -/
def round_decimal8_sats (m : Nat) : Nat := rhe (m * VALUE_PER_COIN) (2 ^ 26)

/-- The `value_in` the code computes (in satoshis) for a record with a
single kept input whose previous output holds `v` satoshis, with the
quotient in `[2^26, 2^27)`: float division on line 190, then the exact
`Decimal` conversion and half-even rounding of line 212. -/
def code_value_in_sats (v : Nat) : Nat := round_decimal8_sats (float_div_sats_mantissa v)

/-- Modelled from the spec: fixed-point decimal arithmetic at precision 8
on a single input of `v` satoshis keeps `v` exactly — `v * 10^-8` has
exactly 8 decimal places, so rounding it at precision 8 is the identity. -/
def fixed_point_value_in_sats (v : Nat) : Nat := v

/-- C1 (code bug, failing input): for a single kept input of
6710886400000002 satoshis (67108864.00000002 coins), the code's
float-then-Decimal pipeline yields 67108864.00000001 coins while the
spec's fixed-point computation yields 67108864.00000002 — a one-satoshi
drift caused by the floating-point division the spec forbids. -/
theorem code_value_in_drifts_from_fixed_point :
    code_value_in_sats 6710886400000002 = 6710886400000001
    ∧ fixed_point_value_in_sats 6710886400000002 = 6710886400000002
    ∧ code_value_in_sats 6710886400000002
        ≠ fixed_point_value_in_sats 6710886400000002 := by
  refine ⟨by decide, rfl, by decide⟩

/-- A Python value passed as a txid in a batch-fetch argument list:
either a string or a value of any other type (which can never pass the
`isinstance(txid, str)` check of lines 335 and 341). -/
inductive PyArg where
  | str (s : String)
  | nonstr
  deriving DecidableEq

/-- The per-entry validity test of lines 334-336 and 340-342:
`txid and isinstance(txid, str) and len(txid) == 64` — a truthy
(non-empty) string of length 64. No hexadecimal-character check is
performed. -/
def valid_txid_arg : PyArg → Bool
  | .str s => !(s == "") && s.length == 64
  | .nonstr => false

/-- `get_tx_raw_list` (lines 333-337): every entry is validated before the
daemon batch call is issued; any invalid entry fails the batch. -/
def get_tx_raw_list (daemon_getrawtransactions : List PyArg → Except PyErr (List α))
    (txid_list : List PyArg) : Except PyErr (List α) :=
  if txid_list.all valid_txid_arg then daemon_getrawtransactions txid_list
  else .error .invalidTxId

/-- `get_tx_detail_list` (lines 339-343): the same validation in front of
the detailed-transactions daemon batch call. -/
def get_tx_detail_list (daemon_getdetailedtransactions : List PyArg → Except PyErr (List TxDetail))
    (txid_list : List PyArg) : Except PyErr (List TxDetail) :=
  if txid_list.all valid_txid_arg then daemon_getdetailedtransactions txid_list
  else .error .invalidTxId

/-- Hexadecimal digit test. -/
def isHexChar (c : Char) : Bool :=
  c.isDigit || ('a' ≤ c && c ≤ 'f') || ('A' ≤ c && c ≤ 'F')

/-- A 64-character string of hexadecimal digits. -/
def isHexString64 (s : String) : Bool := s.length == 64 && s.data.all isHexChar

/-- A 64-character string containing no hexadecimal digit at all. -/
def zz64 : String := "zzzzzzzzzzzzzzzzzzzzzzzzzzzzzzzzzzzzzzzzzzzzzzzzzzzzzzzzzzzzzzzz"

/-- Counterexample to C8: a 64-character entry made of non-hexadecimal
characters passes validation and the batch is issued to the daemon — the
code checks only type and length, never hexadecimal format, so such an
entry does not fail the batch with the invalid-txid error. -/
theorem get_tx_raw_list_accepts_nonhex :
    get_tx_raw_list (fun _ => .ok ([] : List Nat)) [.str zz64] = .ok []
    ∧ get_tx_raw_list (fun _ => .ok ([] : List Nat)) [.str zz64]
        ≠ .error .invalidTxId
    ∧ isHexString64 zz64 = false := by
  refine ⟨rfl, ?_, by decide⟩
  intro h
  have h2 : (Except.ok ([] : List Nat) : Except PyErr (List Nat))
      = .error .invalidTxId := h
  exact Except.noConfusion h2

/-- C8 (amended): before any daemon call, each entry is validated to be a
non-empty string of exactly 64 characters (hexadecimal content is not
checked); if every entry passes, both batch fetchers forward the list to
the daemon unchanged, and otherwise both fail with the invalid-txid error
without issuing the batch. -/
theorem get_tx_lists_validate (daemon : List PyArg → Except PyErr (List Nat))
    (daemon' : List PyArg → Except PyErr (List TxDetail))
    (txid_list : List PyArg) :
    (txid_list.all valid_txid_arg = false →
      get_tx_raw_list daemon txid_list = .error .invalidTxId
      ∧ get_tx_detail_list daemon' txid_list = .error .invalidTxId)
    ∧ (txid_list.all valid_txid_arg = true →
      get_tx_raw_list daemon txid_list = daemon txid_list
      ∧ get_tx_detail_list daemon' txid_list = daemon' txid_list)
    ∧ (∀ a, valid_txid_arg a = true ↔ ∃ s, a = PyArg.str s ∧ s ≠ "" ∧ s.length = 64) := by
  refine ⟨fun h => ?_, fun h => ?_, fun a => ?_⟩
  · simp [get_tx_raw_list, get_tx_detail_list, h]
  · simp [get_tx_raw_list, get_tx_detail_list, h]
  · cases a with
    | str s =>
      simp only [valid_txid_arg, Bool.and_eq_true, Bool.not_eq_true', beq_eq_false_iff_ne,
        ne_eq, beq_iff_eq]
      constructor
      · rintro ⟨h1, h2⟩
        exact ⟨s, rfl, h1, h2⟩
      · rintro ⟨s', hs, h1, h2⟩
        cases hs
        exact ⟨h1, h2⟩
    | nonstr =>
      simp [valid_txid_arg]

/-- Witness for C8 (amended): a too-short entry fails both batches with
the invalid-txid error; a batch of one well-formed 64-character entry is
forwarded to the daemon; validity of a concrete entry unfolds to the
amended format condition. -/
theorem get_tx_lists_validate_witness :
    (get_tx_raw_list (fun _ => .ok ([2] : List Nat)) [.str "ab"] = .error .invalidTxId
      ∧ get_tx_detail_list (fun _ => .ok []) [.str "ab"] = .error .invalidTxId)
    ∧ (get_tx_raw_list (fun _ => .ok ([2] : List Nat)) [.str zz64] = .ok [2]
      ∧ get_tx_detail_list (fun _ => .ok []) [.str zz64] = .ok []) := by
  refine ⟨(get_tx_lists_validate (fun _ => .ok ([2] : List Nat)) (fun _ => .ok []) [.str "ab"]).1
    (by decide), ?_⟩
  have h := (get_tx_lists_validate (fun _ => .ok ([2] : List Nat)) (fun _ => .ok []) [.str zz64]).2.1
    (by decide)
  exact h

/-- Line 257: `item["scriptPubKey"]["addresses"][0] if 'addresses' in
item["scriptPubKey"] else ""` — an absent key yields `""`, a present
non-empty list yields its head, and a present empty list raises an
`IndexError` on `[0]`. -/
def headAddr : Option (List String) → Except PyErr String
  | none => .ok ""
  | some [] => .error .indexError
  | some (a :: _) => .ok a

/-- The loop-body condition of lines 257-259: the output is kept when its
first address equals the requested address, or when it exposes no
addresses and its `n` equals the expected vout (an absent `n` is read as
`""`, which never equals the integer vout). -/
def pick_cond (address : String) (vout : Nat) (item : VoutItem) : Except PyErr Bool := do
  let addr ← headAddr item.scriptPubKey.addresses
  .ok (addr == address || (addr == "" && item.n == some vout))

/-- The `list_pick` accumulation loop of lines 255-260, processing the
outputs in `vout` order and propagating the first raised error. -/
def pick_list (address : String) (vout : Nat) : List VoutItem → Except PyErr (List VoutItem)
  | [] => .ok []
  | item :: rest => do
    let b ← pick_cond address vout item
    let r ← pick_list address vout rest
    .ok (if b then item :: r else r)

/-- The enriched unspent entry assembled on lines 269-276. -/
structure UnspentEntry where
  address : String
  txid : String
  vout : Nat
  scriptPubKey : String
  amount : ℚ
  satoshis : Nat
  height : Int
  confirmations : Int
  deriving DecidableEq

/-- `wallet_unspent` (lines 248-276): reads height/value/vout from the
utxo dict, scans the detail's outputs for matches, fails with the
no-matching-output exception when none matches, and otherwise builds the
entry from `list_pick[0]`: the first matching output. -/
def wallet_unspent (address : String) (utxo : UnspentOut) (tx_detail : TxDetail) :
    Except PyErr UnspentEntry := do
  let list_pick ← pick_list address utxo.tx_pos tx_detail.vout
  match list_pick with
  | [] => .error .missingOutputReference
  | obj :: _ =>
    .ok { address := address, txid := tx_detail.txid, vout := utxo.tx_pos,
          scriptPubKey := obj.scriptPubKey.hex, amount := obj.value,
          satoshis := utxo.value, height := utxo.height,
          confirmations := tx_detail.confirmations.getD 0 }

/-- The pure form of the match condition, agreeing with `pick_cond` on
every output whose `addresses` key, when present, is non-empty. -/
def pick_match (address : String) (vout : Nat) (item : VoutItem) : Bool :=
  let addr :=
    match item.scriptPubKey.addresses with
    | none => ""
    | some [] => ""
    | some (a :: _) => a
  addr == address || (addr == "" && item.n == some vout)

/-- On an output that cannot raise the index error, `pick_cond` computes
`pick_match`. -/
theorem pick_cond_eq_pick_match (address : String) (vout : Nat) (item : VoutItem)
    (h : item.scriptPubKey.addresses ≠ some []) :
    pick_cond address vout item = .ok (pick_match address vout item) := by
  rcases item with ⟨value, spk, n⟩
  rcases spk with ⟨addrs, hx, ty, sw⟩
  cases addrs with
  | none => rfl
  | some l =>
    cases l with
    | nil => exact absurd rfl h
    | cons a rest => rfl

/-- On a list of outputs none of which can raise the index error, the
accumulation loop computes the filter by `pick_match`. -/
theorem pick_list_eq_filter (address : String) (vout : Nat) (l : List VoutItem)
    (h : ∀ i ∈ l, i.scriptPubKey.addresses ≠ some []) :
    pick_list address vout l = .ok (l.filter (pick_match address vout)) := by
  induction l with
  | nil => rfl
  | cons item rest ih =>
    have h1 : item.scriptPubKey.addresses ≠ some [] := h item (List.mem_cons_self item rest)
    have h2 : ∀ i ∈ rest, i.scriptPubKey.addresses ≠ some [] :=
      fun i hi => h i (List.mem_cons_of_mem item hi)
    simp only [pick_list, pick_cond_eq_pick_match address vout item h1, ih h2,
      List.filter_cons]
    rfl

/-- Normal form of `wallet_unspent` when the index error cannot fire: the
result is determined by the `pick_match`-filtered output list. -/
theorem wallet_unspent_eq (address : String) (utxo : UnspentOut) (tx_detail : TxDetail)
    (hok : ∀ i ∈ tx_detail.vout, i.scriptPubKey.addresses ≠ some []) :
    wallet_unspent address utxo tx_detail =
      match tx_detail.vout.filter (pick_match address utxo.tx_pos) with
      | [] => .error .missingOutputReference
      | obj :: _ =>
        .ok { address := address, txid := tx_detail.txid, vout := utxo.tx_pos,
              scriptPubKey := obj.scriptPubKey.hex, amount := obj.value,
              satoshis := utxo.value, height := utxo.height,
              confirmations := tx_detail.confirmations.getD 0 } := by
  simp only [wallet_unspent,
    pick_list_eq_filter address utxo.tx_pos tx_detail.vout hok]
  rfl

/-- The head of a filtered list is its first satisfying element. -/
theorem head_filter_eq_find (p : α → Bool) (l : List α) :
    (l.filter p).head? = l.find? p := by
  induction l with
  | nil => rfl
  | cons a t ih =>
    by_cases hp : p a = true
    · simp [List.filter_cons, List.find?, hp]
    · simp only [Bool.not_eq_true] at hp
      simp [List.filter_cons, List.find?, hp, ih]

/-- C10: when the index error cannot fire, the entry returned by
`wallet_unspent` is built from the first output (in `vout` order)
satisfying the match condition — amount and scriptPubKey are a
deterministic function of the inputs even when several outputs match. -/
theorem wallet_unspent_first_match (address : String) (utxo : UnspentOut)
    (tx_detail : TxDetail)
    (hok : ∀ i ∈ tx_detail.vout, i.scriptPubKey.addresses ≠ some [])
    (o : VoutItem)
    (hfind : tx_detail.vout.find? (pick_match address utxo.tx_pos) = some o) :
    wallet_unspent address utxo tx_detail
      = .ok { address := address, txid := tx_detail.txid, vout := utxo.tx_pos,
              scriptPubKey := o.scriptPubKey.hex, amount := o.value,
              satoshis := utxo.value, height := utxo.height,
              confirmations := tx_detail.confirmations.getD 0 } := by
  have hhead : (tx_detail.vout.filter (pick_match address utxo.tx_pos)).head? = some o := by
    rw [head_filter_eq_find]
    exact hfind
  rw [wallet_unspent_eq address utxo tx_detail hok]
  cases hf : tx_detail.vout.filter (pick_match address utxo.tx_pos) with
  | nil => rw [hf] at hhead; exact Option.noConfusion hhead
  | cons obj rest =>
    rw [hf] at hhead
    injection hhead with hh
    subst hh
    rfl

/-- Witness for C10: two outputs match the requested address; the entry is
built from the first one in `vout` order (amount 11, script `"aa"`), not
the second. -/
theorem wallet_unspent_first_match_witness :
    wallet_unspent "w" { tx_hash := "t", tx_pos := 0, height := 3, value := 5 }
      { txid := "t", confirmations := some 1, time := none, vin := [],
        vout := [ { value := 11,
                    scriptPubKey := { addresses := some ["w"], hex := "aa",
                                      type := "pubkeyhash", segwit := none },
                    n := some 0 },
                  { value := 22,
                    scriptPubKey := { addresses := some ["w"], hex := "bb",
                                      type := "pubkeyhash", segwit := none },
                    n := some 1 } ] }
      = .ok { address := "w", txid := "t", vout := 0, scriptPubKey := "aa",
              amount := 11, satoshis := 5, height := 3, confirmations := 1 } := by
  exact wallet_unspent_first_match "w" _ _ (by decide)
    { value := 11,
      scriptPubKey := { addresses := some ["w"], hex := "aa",
                        type := "pubkeyhash", segwit := none },
      n := some 0 } (by decide)

/-- Counterexample to C7: the outputs at indices 0 and 1 both carry the
requested address, the expected vout is 1, yet the entry is built from the
output at index 0 (amount 5, script `"aa"`), not from the exact
output-index match at index 1 (amount 7, script `"bb"`): selection does
not prefer an output-index match — the address match is primary, scanned
in `vout` order, and the index is consulted only for outputs that carry no
addresses. -/
theorem wallet_unspent_no_index_preference :
    wallet_unspent "a" { tx_hash := "t", tx_pos := 1, height := 9, value := 700 }
      { txid := "t", confirmations := some 2, time := none, vin := [],
        vout := [ { value := 5,
                    scriptPubKey := { addresses := some ["a"], hex := "aa",
                                      type := "pubkeyhash", segwit := none },
                    n := some 0 },
                  { value := 7,
                    scriptPubKey := { addresses := some ["a"], hex := "bb",
                                      type := "pubkeyhash", segwit := none },
                    n := some 1 } ] }
      = .ok { address := "a", txid := "t", vout := 1, scriptPubKey := "aa",
              amount := 5, satoshis := 700, height := 9, confirmations := 2 }
    ∧ ((5 : ℚ) ≠ 7) ∧ ("aa" : String) ≠ "bb" := by
  refine ⟨rfl, by norm_num, by decide⟩

/-- The first recoverable destination address of an output's script: the
head of its `addresses` list, or `""` when the key is absent or the list
is empty. -/
def first_addr (spk : ScriptPubKey) : String := (spk.addresses.getD []).headD ""

/-- C7 (amended): when the index error cannot fire, `wallet_unspent` fails
with the no-matching-output error exactly when no output satisfies the
match condition, and an output matches exactly when its first recoverable
address equals the requested address, or it has no recoverable address and
its index `n` equals the expected vout — the address match is primary and
the index fallback is per-output, not conditional on the whole list. -/
theorem wallet_unspent_match_rule (address : String) (utxo : UnspentOut)
    (tx_detail : TxDetail)
    (hok : ∀ i ∈ tx_detail.vout, i.scriptPubKey.addresses ≠ some []) :
    (wallet_unspent address utxo tx_detail = .error .missingOutputReference
      ↔ ∀ i ∈ tx_detail.vout, pick_match address utxo.tx_pos i = false)
    ∧ ∀ i : VoutItem, pick_match address utxo.tx_pos i = true
      ↔ (first_addr i.scriptPubKey = address
          ∨ (first_addr i.scriptPubKey = "" ∧ i.n = some utxo.tx_pos)) := by
  constructor
  · rw [wallet_unspent_eq address utxo tx_detail hok]
    cases hf : tx_detail.vout.filter (pick_match address utxo.tx_pos) with
    | nil =>
      rw [List.filter_eq_nil_iff] at hf
      refine ⟨fun _ i hi => ?_, fun _ => rfl⟩
      simpa using hf i hi
    | cons obj rest =>
      have hobj : obj ∈ tx_detail.vout.filter (pick_match address utxo.tx_pos) := by
        rw [hf]; exact List.mem_cons_self obj rest
      rw [List.mem_filter] at hobj
      constructor
      · intro h; exact Except.noConfusion h
      · intro h
        rw [h obj hobj.1] at hobj
        exact Bool.noConfusion hobj.2
  · intro i
    rcases i with ⟨value, spk, n⟩
    rcases spk with ⟨addrs, hx, ty, sw⟩
    cases addrs with
    | none => simp [pick_match, first_addr]
    | some l =>
      cases l with
      | nil => simp [pick_match, first_addr]
      | cons a rest => simp [pick_match, first_addr]

/-- Witness for C7 (amended): a detail whose only output belongs to a
different address fails with the no-matching-output error, and an
output carrying the requested address as its first address satisfies the
match condition. -/
theorem wallet_unspent_match_rule_witness :
    wallet_unspent "z" { tx_hash := "t", tx_pos := 0, height := 1, value := 4 }
      { txid := "t", confirmations := none, time := none, vin := [],
        vout := [ { value := 3,
                    scriptPubKey := { addresses := some ["other"], hex := "cc",
                                      type := "pubkeyhash", segwit := none },
                    n := some 0 } ] }
      = .error .missingOutputReference
    ∧ pick_match "z" 0
        { value := 3,
          scriptPubKey := { addresses := some ["z"], hex := "dd",
                            type := "pubkeyhash", segwit := none },
          n := some 7 } = true := by
  constructor
  · exact (wallet_unspent_match_rule "z" _ _ (by decide)).1.mpr (by decide)
  · exact (wallet_unspent_match_rule "z"
      { tx_hash := "t", tx_pos := 0, height := 1, value := 4 }
      { txid := "t", confirmations := none, time := none, vin := [], vout := [] }
      (by decide)).2 _ |>.mpr (Or.inl rfl)

/-- Fail-fast fan-out join: the model of `asyncio.gather(*coros)` without
`return_exceptions` — all branch results, or the first error in list
order. -/
def gather (f : α → Except PyErr β) : List α → Except PyErr (List β)
  | [] => .ok []
  | a :: rest =>
    match f a with
    | .error e => .error e
    | .ok b =>
      match gather f rest with
      | .error e => .error e
      | .ok bs => .ok (b :: bs)

/-- A failing branch fails the whole join. -/
theorem gather_error_of_mem (f : α → Except PyErr β) (l : List α) (a : α)
    (ha : a ∈ l) (e : PyErr) (he : f a = .error e) :
    ∃ e', gather f l = .error e' := by
  induction l with
  | nil => exact absurd ha (List.not_mem_nil a)
  | cons x t ih =>
    cases hx : f x with
    | error e'' => exact ⟨e'', by simp [gather, hx]⟩
    | ok b =>
      rcases List.mem_cons.mp ha with rfl | hat
      · rw [he] at hx; exact Except.noConfusion hx
      · obtain ⟨e', hge⟩ := ih hat
        exact ⟨e', by simp [gather, hx, hge]⟩

/-- The join succeeds exactly when every branch succeeds, in which case it
returns all branch results in order. -/
theorem gather_ok_iff (f : α → Except PyErr β) (l : List α) :
    (∃ bs, gather f l = .ok bs) ↔ ∀ a ∈ l, ∃ b, f a = .ok b := by
  induction l with
  | nil => simp [gather]
  | cons x t ih =>
    constructor
    · rintro ⟨bs, hbs⟩
      intro a ha
      simp only [gather] at hbs
      cases hx : f x with
      | error e => rw [hx] at hbs; exact Except.noConfusion hbs
      | ok b =>
        rw [hx] at hbs
        cases hg : gather f t with
        | error e => rw [hg] at hbs; exact Except.noConfusion hbs
        | ok bs' =>
          rcases List.mem_cons.mp ha with rfl | hat
          · exact ⟨b, hx⟩
          · exact ih.mp ⟨bs', hg⟩ a hat
    · intro h
      obtain ⟨b, hb⟩ := h x (List.mem_cons_self x t)
      obtain ⟨bs, hbs⟩ := ih.mpr (fun a ha => h a (List.mem_cons_of_mem x ha))
      exact ⟨b :: bs, by simp [gather, hb, hbs]⟩

/-- `history_factory` (lines 159-228): concurrent fail-fast fan-out of the
per-record builder over the fetched details. The builder itself
(`process_single_tx_record`) is passed as a function; its timestamp
resolution is embedded as `resolve_tx_time` and its value arithmetic is
modelled by `code_value_in_sats`. -/
def history_factory (process_single_tx_record : TxDetail → Except PyErr β)
    (tx_detail_list : List TxDetail) : Except PyErr (List β) :=
  gather process_single_tx_record tx_detail_list

/-- Python list slice `l[f:t]` for non-negative bounds, as used on
line 119 with the clamped window. -/
def pySlice (l : List α) (f t : Int) : List α := (l.take t.toNat).drop f.toNat

/-- The per-address result dict `{ 'addr': ..., 'txs': ... }` of
line 122. -/
structure AddrHist (β : Type) where
  addr : String
  txs : List β

/-- `get_single_address_history` (lines 115-124): collect the txid list
for the address, fetch detail for the paginated window, build the records
(fail-fast), and sort them by descending time. The txid collection and
detail fetch are the collaborator-backed methods `get_txid_list` and
`get_tx_detail_list`, passed as functions of their collaborator inputs. -/
def get_single_address_history (collect_txids : String → Except PyErr (List String))
    (fetch_details : List String → Except PyErr (List TxDetail))
    (process_single_tx_record : TxDetail → Except PyErr β)
    (time_key : β → Nat) (query_from query_to : Int) (addr : String) :
    Except PyErr (AddrHist β) :=
  match collect_txids addr with
  | .error e => .error e
  | .ok txid_list =>
    match fetch_details (pySlice txid_list query_from query_to) with
    | .error e => .error e
    | .ok tx_detail_list =>
      match history_factory process_single_tx_record tx_detail_list with
      | .error e => .error e
      | .ok hist =>
        .ok ⟨addr, sortLe (fun x y => decide (time_key y ≤ time_key x)) hist⟩

/-- `history` (lines 86-131): pagination checks and clamping, then a
concurrent fail-fast fan-out of the per-address pipeline over the
requested addresses. -/
def history (collect_txids : String → Except PyErr (List String))
    (fetch_details : List String → Except PyErr (List TxDetail))
    (process_single_tx_record : TxDetail → Except PyErr β)
    (time_key : β → Nat) (addrs : List String) (query_from query_to : Int) :
    Except PyErr (List (AddrHist β)) :=
  match clampWindow query_from query_to with
  | .error e => .error e
  | .ok (qf, qt) =>
    gather
      (get_single_address_history collect_txids fetch_details
        process_single_tx_record time_key qf qt)
      addrs

/-- C4: if for any one requested address any single record build fails,
the whole multi-address request fails — no partial per-address results are
returned and the error is not suppressed. -/
theorem history_fails_on_single_record
    (collect_txids : String → Except PyErr (List String))
    (fetch_details : List String → Except PyErr (List TxDetail))
    (process_single_tx_record : TxDetail → Except PyErr β)
    (time_key : β → Nat) (addrs : List String) (query_from query_to qf qt : Int)
    (a : String) (ids : List String) (ds : List TxDetail) (d : TxDetail) (e : PyErr)
    (hclamp : clampWindow query_from query_to = .ok (qf, qt))
    (ha : a ∈ addrs)
    (hids : collect_txids a = .ok ids)
    (hds : fetch_details (pySlice ids qf qt) = .ok ds)
    (hd : d ∈ ds)
    (hbuild : process_single_tx_record d = .error e) :
    ∃ e', history collect_txids fetch_details process_single_tx_record
            time_key addrs query_from query_to = .error e' := by
  obtain ⟨e1, hge⟩ :=
    gather_error_of_mem process_single_tx_record ds d hd e hbuild
  have hpipe : get_single_address_history collect_txids fetch_details
      process_single_tx_record time_key qf qt a = .error e1 := by
    simp [get_single_address_history, hids, hds, history_factory, hge]
  obtain ⟨e', hg⟩ :=
    gather_error_of_mem
      (get_single_address_history collect_txids fetch_details
        process_single_tx_record time_key qf qt)
      addrs a ha e1 hpipe
  exact ⟨e', by simp [history, hclamp, hg]⟩

/-- Witness for C4: three addresses, of which the middle one has a single
transaction whose record build fails with a collaborator error (such as a
failed script decode); the whole three-address request fails. -/
theorem history_fails_on_single_record_witness :
    ∃ e', history (fun _ => .ok ["t1"])
            (fun ids => .ok (ids.map (fun _ =>
              { txid := "t1", confirmations := none, time := none,
                vin := [], vout := [] })))
            (fun _ => (.error .upstream : Except PyErr Nat))
            (fun n => n) ["a1", "a2", "a3"] 0 50 = .error e' := by
  exact history_fails_on_single_record
    (fun _ => .ok ["t1"])
    (fun ids => .ok (ids.map (fun _ =>
      { txid := "t1", confirmations := none, time := none, vin := [], vout := [] })))
    (fun _ => (.error .upstream : Except PyErr Nat))
    (fun n => n) ["a1", "a2", "a3"] 0 50 0 50 "a2" ["t1"]
    [{ txid := "t1", confirmations := none, time := none, vin := [], vout := [] }]
    { txid := "t1", confirmations := none, time := none, vin := [], vout := [] }
    .upstream rfl (by decide) rfl rfl (List.mem_cons_self _ _) rfl

end ElectrumX
